import Mathlib

/-
Verification of the Resource Control Dispatch layer of the Fetchtainers
library against its design document.

The embedding models the JavaScript runtime values that can reach the
operations, the collaborator surface (environment resolver, stack and
container readers, lookup helpers, HTTP transport), and each operation as a
pure function from a collaborator behaviour (a `World`) and its arguments to
an `Outcome` (normal return or raised exception) paired with the ordered
trace of side effects the operation performed.
-/

/-- Runtime value passed where the TypeScript signatures say
`number`, `number | null | undefined`, or `number | string`.  A finite
number is carried as an exact rational (the standard idealisation of a
JavaScript double), NaN is a separate constructor since `typeof NaN` is
still "number" while `isNaN` flags it. -/
inductive JSValue where
  | num (q : ℚ)
  | nan
  | str (s : String)
  | boolean (b : Bool)
  | jsNull
  | jsUndefined
  deriving DecidableEq

/-- Body of the stack update PUT request, mirroring the object literal
`{ StackFileContent, Prune: false, PullImage }` in updateStack. -/
structure UpdateBody where
  StackFileContent : String
  Prune : Bool
  PullImage : Bool
  deriving DecidableEq

/-- One outbound HTTP request, carrying exactly the values the source
interpolates into the URL template (and the body for the update PUT).
The comments give the template from the source. -/
inductive Request where
  /-- POST /api/stacks/{stackId}/start?endpointId={environmentId} -/
  | stackStart (stackId endpointId : JSValue)
  /-- POST /api/stacks/{stackId}/stop?endpointId={environmentId} -/
  | stackStop (stackId endpointId : JSValue)
  /-- PUT /api/stacks/{stackId}?endpointId={environmentId} with body -/
  | stackUpdate (stackId endpointId : JSValue) (body : UpdateBody)
  /-- DELETE /api/stacks/{stackId}?endpointId={environmentId} -/
  | stackDelete (stackId endpointId : JSValue)
  /-- POST /api/endpoints/{env}/docker/containers/{id}/start -/
  | containerStart (containerId endpointId : JSValue)
  /-- POST /api/endpoints/{env}/docker/containers/{id}/stop -/
  | containerStop (containerId endpointId : JSValue)
  /-- DELETE /api/endpoints/{env}/docker/containers/{id} (no params) -/
  | containerDelete (containerId endpointId : JSValue)
  /-- DELETE /api/endpoints/{env}/docker/containers/{id}?force=..&v=.. -/
  | containerRemove (containerId endpointId : JSValue) (force removeVolumes : Bool)
  /-- POST /api/endpoints/{env}/docker/containers/{id}/kill?signal={sig} -/
  | containerKill (containerId endpointId : JSValue) (sig : String)
  /-- POST /api/endpoints/{env}/docker/containers/{id}/pause -/
  | containerPause (containerId endpointId : JSValue)
  /-- POST /api/endpoints/{env}/docker/containers/{id}/unpause -/
  | containerUnpause (containerId endpointId : JSValue)
  /-- POST /api/endpoints/{env}/docker/containers/{id}/restart?t={t} -/
  | containerRestart (containerId endpointId : JSValue) (t : String)
  deriving DecidableEq

/-- One observable side effect of an operation, in program order. -/
inductive Event where
  /-- a call to the environment resolver ensureEnvId -/
  | resolveEnv
  /-- a call to getStacks -/
  | fetchStacks
  /-- a call to getContainers(force) -/
  | fetchContainers (force : Bool)
  /-- a call to the helper getStackById(stackId, environmentId) -/
  | stackById (stackId endpointId : JSValue)
  /-- a call to the helper getStackByName(name) -/
  | stackByName (name : String)
  /-- an outbound HTTP request -/
  | http (r : Request)
  /-- the fixed setTimeout quiescence delay, in milliseconds -/
  | sleep (ms : ℕ)
  deriving DecidableEq

/-- Stack summary as used by the control layer: only Id and Name matter. -/
structure Stack where
  Id : ℚ
  Name : String
  deriving DecidableEq

/-- Container summary fields used by cleanupExistingContainer. -/
structure Container where
  Id : String
  Names : List String
  State : String
  deriving DecidableEq

/-- Result of a JavaScript async step: either a normal value or a raised
exception (carried as an opaque message). -/
inductive Outcome (α : Type) where
  | ok (a : α)
  | thrown (msg : String)
  deriving DecidableEq

/-- True when the outcome is a raised exception. -/
def Outcome.isThrown {α : Type} : Outcome α → Bool
  | Outcome.ok _ => false
  | Outcome.thrown _ => true

/-- Collaborator behaviour: what each external call returns (or raises)
during one run.  `ensureEnvId` returning `ok none` models the resolver
resolving to null (no environment found); readers returning `ok none`
model an undefined collection. -/
structure World where
  ensureEnvId : Outcome (Option ℚ)
  getStacks : Outcome (Option (List Stack))
  getContainers : Outcome (Option (List Container))
  getStackById : JSValue → JSValue → Outcome (Option Stack)
  getStackByName : String → Outcome (Option Stack)
  http : Request → Outcome ℕ

/-- The stackId validation used by every StackControlsMixin operation:
`typeof stackId !== 'number' || isNaN(stackId) || stackId <= 0`. -/
def invalidStackId : JSValue → Bool
  | JSValue.num q => decide (q ≤ 0)
  | JSValue.nan => true
  | _ => true

/-- The environmentId validation used by the StackControlsMixin operations:
`environmentId !== undefined && environmentId !== null &&
 (typeof environmentId !== 'number' || isNaN(environmentId))`. -/
def invalidOptEnvId : JSValue → Bool
  | JSValue.jsUndefined => false
  | JSValue.jsNull => false
  | JSValue.num _ => false
  | _ => true

/-- The recurring resolution step shared verbatim by the api-core
operations and the validated mixin start and stop operations:

  if (environmentId === null || environmentId === undefined)
      environmentId = await this.ensureEnvId();
  if (environmentId === null) return failure-value;

Returns `ok none` for the abort branch, `ok (some v)` with the value the
operation proceeds with, and `thrown` when the resolver raises (the call
sits outside every try block in the source). -/
def resolveIfAbsent (w : World) (environmentId : JSValue) :
    Outcome (Option JSValue) × List Event :=
  match environmentId with
  | JSValue.jsUndefined =>
      (match w.ensureEnvId with
       | Outcome.thrown m => (Outcome.thrown m, [Event.resolveEnv])
       | Outcome.ok none => (Outcome.ok none, [Event.resolveEnv])
       | Outcome.ok (some q) => (Outcome.ok (some (JSValue.num q)), [Event.resolveEnv]))
  | JSValue.jsNull =>
      (match w.ensureEnvId with
       | Outcome.thrown m => (Outcome.thrown m, [Event.resolveEnv])
       | Outcome.ok none => (Outcome.ok none, [Event.resolveEnv])
       | Outcome.ok (some q) => (Outcome.ok (some (JSValue.num q)), [Event.resolveEnv]))
  | v => (Outcome.ok (some v), [])

/-- Character-list version of the JavaScript test `s.startsWith(pat)`,
used to build the substring test below. -/
def leadsWith : List Char → List Char → Bool
  | [], _ => true
  | _ :: _, [] => false
  | a :: as, b :: bs => a == b && leadsWith as bs

/-- JavaScript `s.includes(pat)`: pat occurs as a contiguous substring. -/
def strIncludes (s pat : String) : Bool :=
  s.data.tails.any (fun t => leadsWith pat.data t)

/-- Drop leading whitespace characters. -/
def dropLeadingWS : List Char → List Char
  | [] => []
  | c :: cs => if c.isWhitespace then dropLeadingWS cs else c :: cs

/-- JavaScript `s.trim()`: remove leading and trailing whitespace. -/
def jsTrim (s : String) : String :=
  String.mk (dropLeadingWS (dropLeadingWS s.data).reverse).reverse

/-- Fuel-driven count of decimal digits minus one; `digitsBelow n n` is
floor of the base-10 logarithm of n (0 for n below 10). -/
def digitsBelow : ℕ → ℕ → ℕ
  | 0, _ => 0
  | fuel + 1, n => if n < 10 then 0 else digitsBelow fuel (n / 10) + 1

/-- Floor of the base-10 logarithm of a natural number (0 at 0). -/
def natLog10 (n : ℕ) : ℕ := digitsBelow n n

/-- Decides whether ten to the integer power e is at most the positive
rational q, by cross multiplication over the integers. -/
def qPowLE (e : ℤ) (q : ℚ) : Bool :=
  if 0 ≤ e then decide ((q.den : ℤ) * (10 : ℤ) ^ e.toNat ≤ q.num)
  else decide ((q.den : ℤ) ≤ q.num * (10 : ℤ) ^ (-e).toNat)

/-- For a positive rational q, the unique integer e with
ten to the e at most q and q below ten to the e plus one. -/
def qExp10 (q : ℚ) : ℤ :=
  let e0 : ℤ := (natLog10 q.num.toNat : ℤ) - (natLog10 q.den : ℤ)
  if qPowLE e0 q = false then e0 - 1
  else if qPowLE (e0 + 1) q then e0 + 1
  else e0

/-- q times ten to the integer power k, kept as an exact rational. -/
def qMulPow10 (q : ℚ) (k : ℤ) : ℚ :=
  if 0 ≤ k then q * ((10 : ℚ) ^ k.toNat) else q / ((10 : ℚ) ^ (-k).toNat)

/-- Floor of a rational as an integer (flooring division of the
numerator by the denominator). -/
def ratFloor (q : ℚ) : ℤ := Int.fdiv q.num (q.den : ℤ)

/-- Rendering step of the ECMAScript toPrecision algorithm for
precision 2: given the decimal exponent e and the two rounded digits s,
produce the final string (exponential form when e is below -6 or at
least 2, integer form at e = 1, and fixed-point forms otherwise). -/
def renderPrec2 (e : ℤ) (s : String) : String :=
  if e < -6 ∨ 2 ≤ e then
    s.take 1 ++ "." ++ s.drop 1 ++ "e" ++
      (if 0 ≤ e then "+" ++ toString e.toNat else "-" ++ toString (-e).toNat)
  else if e = 1 then s
  else if e = 0 then s.take 1 ++ "." ++ s.drop 1
  else "0." ++ String.mk (List.replicate (-(e + 1)).toNat '0') ++ s

/-- Two-significant-digit conversion of a positive rational: decimal
exponent, round half away from zero to two digits (ECMAScript picks the
larger n on a tie), carry when the rounding overflows to 100. -/
def jsToPrecision2Pos (q : ℚ) : String :=
  let e0 := qExp10 q
  let n0 := ratFloor (qMulPow10 q (1 - e0) + 1 / 2)
  let e := if n0 = 100 then e0 + 1 else e0
  let n := if n0 = 100 then (10 : ℤ) else n0
  renderPrec2 e (toString n.toNat)

/-- Embedding of the JavaScript call `x.toPrecision(2)` on an exact
rational value x (the idealisation of the double held at that point);
used by restartContainer for its t query parameter. -/
def jsToPrecision2 (q : ℚ) : String :=
  if q = 0 then "0.0"
  else if q < 0 then "-" ++ jsToPrecision2Pos (-q)
  else jsToPrecision2Pos q

namespace Mixin

/-- Embedding of startStack from src/src/mixins/StackControlsMixin.ts
(lines 20-49): reject non-number, NaN or non-positive stackId; reject an
environmentId that is present but not a number; resolve an absent
environmentId and abort on null; then POST the start request, catching a
transport throw as false. -/
def startStack (w : World) (stackId environmentId : JSValue) :
    Outcome Bool × List Event :=
  if invalidStackId stackId then (Outcome.ok false, [])
  else if invalidOptEnvId environmentId then (Outcome.ok false, [])
  else
    match resolveIfAbsent w environmentId with
    | (Outcome.thrown m, tr) => (Outcome.thrown m, tr)
    | (Outcome.ok none, tr) => (Outcome.ok false, tr)
    | (Outcome.ok (some envV), tr) =>
      let req := Request.stackStart stackId envV
      match w.http req with
      | Outcome.ok _ => (Outcome.ok true, tr ++ [Event.http req])
      | Outcome.thrown _ => (Outcome.ok false, tr ++ [Event.http req])

/-- Embedding of stopStack from src/src/mixins/StackControlsMixin.ts
(lines 58-87): same validation and resolution pattern as startStack,
then POST the stop request, catching a transport throw as false. -/
def stopStack (w : World) (stackId environmentId : JSValue) :
    Outcome Bool × List Event :=
  if invalidStackId stackId then (Outcome.ok false, [])
  else if invalidOptEnvId environmentId then (Outcome.ok false, [])
  else
    match resolveIfAbsent w environmentId with
    | (Outcome.thrown m, tr) => (Outcome.thrown m, tr)
    | (Outcome.ok none, tr) => (Outcome.ok false, tr)
    | (Outcome.ok (some envV), tr) =>
      let req := Request.stackStop stackId envV
      match w.http req with
      | Outcome.ok _ => (Outcome.ok true, tr ++ [Event.http req])
      | Outcome.thrown _ => (Outcome.ok false, tr ++ [Event.http req])

/-- Embedding of updateStack from src/src/mixins/StackControlsMixin.ts
(lines 97-138): reject invalid stackId; reject a composeContent that is
not a string or trims to empty; an environmentId of invalid type is
silently re-resolved (the asymmetry the design notes record); a null
environment aborts; then PUT the update body, catching a throw as
false.  Note that an undefined environmentId is neither re-resolved nor
rejected and flows into the request. -/
def updateStack (w : World) (stackId composeContent environmentId : JSValue)
    (pullImage : Bool) : Outcome Bool × List Event :=
  if invalidStackId stackId then (Outcome.ok false, [])
  else
    match composeContent with
    | JSValue.str content =>
      if jsTrim content = "" then (Outcome.ok false, [])
      else
        let resolved : Outcome JSValue × List Event :=
          if invalidOptEnvId environmentId then
            match w.ensureEnvId with
            | Outcome.thrown m => (Outcome.thrown m, [Event.resolveEnv])
            | Outcome.ok none => (Outcome.ok JSValue.jsNull, [Event.resolveEnv])
            | Outcome.ok (some q) => (Outcome.ok (JSValue.num q), [Event.resolveEnv])
          else (Outcome.ok environmentId, [])
        match resolved with
        | (Outcome.thrown m, tr) => (Outcome.thrown m, tr)
        | (Outcome.ok envV, tr) =>
          if envV = JSValue.jsNull then (Outcome.ok false, tr)
          else
            let req := Request.stackUpdate stackId envV
              (UpdateBody.mk content false pullImage)
            match w.http req with
            | Outcome.ok _ => (Outcome.ok true, tr ++ [Event.http req])
            | Outcome.thrown _ => (Outcome.ok false, tr ++ [Event.http req])
    | _ => (Outcome.ok false, [])

/-- The try block of redeployStack (source lines 164-200), factored out
at the point where the stackId q, the environment value envV and the
trace tr of the preceding resolution step are fixed: fetch the stacks
(an unavailable or raised fetch is caught into a hard false), locate the
entry with matching Id (absence is a hard false), run the stop
sub-operation (its own inner try swallows a raised stop, and its boolean
result is never inspected), sleep the fixed 2000 ms, run the start
sub-operation and return true unless the start invocation itself raised,
in which case the outer catch returns false. -/
def redeployBody (w : World) (q : ℚ) (envV : JSValue) (tr : List Event) :
    Outcome Bool × List Event :=
  match w.getStacks with
  | Outcome.thrown _ => (Outcome.ok false, tr ++ [Event.fetchStacks])
  | Outcome.ok none => (Outcome.ok false, tr ++ [Event.fetchStacks])
  | Outcome.ok (some stackList) =>
    match stackList.find? (fun s => decide (s.Id = q)) with
    | none => (Outcome.ok false, tr ++ [Event.fetchStacks])
    | some _ =>
      let stopRun := stopStack w (JSValue.num q) envV
      let startRun := startStack w (JSValue.num q) envV
      let trace := tr ++ [Event.fetchStacks] ++ stopRun.2 ++
        [Event.sleep 2000] ++ startRun.2
      match startRun.1 with
      | Outcome.thrown _ => (Outcome.ok false, trace)
      | Outcome.ok _ => (Outcome.ok true, trace)

/-- Embedding of redeployStack from src/src/mixins/StackControlsMixin.ts
(lines 146-201): reject invalid stackId; silently re-resolve an
environmentId of invalid type; abort on a null environment; then run the
try block captured by redeployBody. -/
def redeployStack (w : World) (stackId environmentId : JSValue) :
    Outcome Bool × List Event :=
  match stackId with
  | JSValue.num q =>
    if q ≤ 0 then (Outcome.ok false, [])
    else
      let resolved : Outcome JSValue × List Event :=
        if invalidOptEnvId environmentId then
          match w.ensureEnvId with
          | Outcome.thrown m => (Outcome.thrown m, [Event.resolveEnv])
          | Outcome.ok none => (Outcome.ok JSValue.jsNull, [Event.resolveEnv])
          | Outcome.ok (some e) => (Outcome.ok (JSValue.num e), [Event.resolveEnv])
        else (Outcome.ok environmentId, [])
      match resolved with
      | (Outcome.thrown m, tr) => (Outcome.thrown m, tr)
      | (Outcome.ok envV, tr) =>
        if envV = JSValue.jsNull then (Outcome.ok false, tr)
        else redeployBody w q envV tr
  | _ => (Outcome.ok false, [])

end Mixin

namespace ApiCore

/-- Embedding of startStack from src/src/api.ts (lines 45-64), identical
in src/unnamed/part_001 (lines 339-358): no stackId validation; resolve
an absent environmentId and abort on null; POST the start request,
catching a transport throw as false. -/
def startStack (w : World) (stackId environmentId : JSValue) :
    Outcome Bool × List Event :=
  match resolveIfAbsent w environmentId with
  | (Outcome.thrown m, tr) => (Outcome.thrown m, tr)
  | (Outcome.ok none, tr) => (Outcome.ok false, tr)
  | (Outcome.ok (some envV), tr) =>
    let req := Request.stackStart stackId envV
    match w.http req with
    | Outcome.ok _ => (Outcome.ok true, tr ++ [Event.http req])
    | Outcome.thrown _ => (Outcome.ok false, tr ++ [Event.http req])

/-- Embedding of stopStack from src/src/api.ts (lines 73-88), identical
in src/unnamed/part_001 (lines 367-382): no stackId validation and no
resolution step; the guard checks only environmentId === null, so an
undefined environmentId flows into the request; POST the stop request,
catching a transport throw as false. -/
def stopStack (w : World) (stackId environmentId : JSValue) :
    Outcome Bool × List Event :=
  if environmentId = JSValue.jsNull then (Outcome.ok false, [])
  else
    let req := Request.stackStop stackId environmentId
    match w.http req with
    | Outcome.ok _ => (Outcome.ok true, [Event.http req])
    | Outcome.thrown _ => (Outcome.ok false, [Event.http req])

/-- Embedding of cleanupExistingContainer from src/unnamed/part_001
(lines 38-77).  The whole body sits in one try block whose catch returns
false, so every raised step (resolver, reader, stop, delete) ends the
operation with false.  No input validation happens: an absent
environment is resolved, the container list is fetched with force true,
the first container whose alias list has an entry containing
containerName as a substring or equal to slash plus containerName is
selected; if its State is running a stop call precedes the delete call,
and a raised stop is caught by the one outer catch, so the delete is not
attempted in that case. -/
def cleanupExistingContainer (w : World) (containerName : String)
    (environmentId : JSValue) : Outcome Bool × List Event :=
  match resolveIfAbsent w environmentId with
  | (Outcome.thrown _, tr) => (Outcome.ok false, tr)
  | (Outcome.ok none, tr) => (Outcome.ok false, tr)
  | (Outcome.ok (some envV), tr) =>
    match w.getContainers with
    | Outcome.thrown _ => (Outcome.ok false, tr ++ [Event.fetchContainers true])
    | Outcome.ok none => (Outcome.ok false, tr ++ [Event.fetchContainers true])
    | Outcome.ok (some containers) =>
      let tr2 := tr ++ [Event.fetchContainers true]
      match containers.find? (fun c =>
          c.Names.any (fun nm => strIncludes nm containerName) ||
          c.Names.any (fun nm => nm == "/" ++ containerName)) with
      | none => (Outcome.ok false, tr2)
      | some c =>
        if c.State = "running" then
          let stopReq := Request.containerStop (JSValue.str c.Id) envV
          match w.http stopReq with
          | Outcome.thrown _ => (Outcome.ok false, tr2 ++ [Event.http stopReq])
          | Outcome.ok _ =>
            let delReq := Request.containerDelete (JSValue.str c.Id) envV
            match w.http delReq with
            | Outcome.thrown _ =>
              (Outcome.ok false, tr2 ++ [Event.http stopReq, Event.http delReq])
            | Outcome.ok _ =>
              (Outcome.ok true, tr2 ++ [Event.http stopReq, Event.http delReq])
        else
          let delReq := Request.containerDelete (JSValue.str c.Id) envV
          match w.http delReq with
          | Outcome.thrown _ => (Outcome.ok false, tr2 ++ [Event.http delReq])
          | Outcome.ok _ => (Outcome.ok true, tr2 ++ [Event.http delReq])

/-- Embedding of deleteStack from src/unnamed/part_001 (lines 100-136):
resolve an absent environment (outside any try block, so a raised
resolver propagates) and abort with undefined on null; a numeric
argument (NaN included, since its typeof is number) is checked through
getStackById and absence aborts with undefined; a string argument is
checked through getStackByName, absence aborts with undefined, and a hit
replaces the argument with the found numeric Id; an argument of any
other type skips both checks; the lookups also sit outside the try
block, so a raised lookup propagates; finally the delete request is
issued inside the try block, returning the response payload, with a
throw caught as undefined. -/
def deleteStack (w : World) (stackId environmentId : JSValue) :
    Outcome (Option ℕ) × List Event :=
  match resolveIfAbsent w environmentId with
  | (Outcome.thrown m, tr) => (Outcome.thrown m, tr)
  | (Outcome.ok none, tr) => (Outcome.ok none, tr)
  | (Outcome.ok (some envV), tr) =>
    let afterLookup : Outcome (Option JSValue) × List Event :=
      match stackId with
      | JSValue.num _ =>
        (match w.getStackById stackId envV with
         | Outcome.thrown m => (Outcome.thrown m, [Event.stackById stackId envV])
         | Outcome.ok none => (Outcome.ok none, [Event.stackById stackId envV])
         | Outcome.ok (some _) => (Outcome.ok (some stackId), [Event.stackById stackId envV]))
      | JSValue.nan =>
        (match w.getStackById stackId envV with
         | Outcome.thrown m => (Outcome.thrown m, [Event.stackById stackId envV])
         | Outcome.ok none => (Outcome.ok none, [Event.stackById stackId envV])
         | Outcome.ok (some _) => (Outcome.ok (some stackId), [Event.stackById stackId envV]))
      | JSValue.str name =>
        (match w.getStackByName name with
         | Outcome.thrown m => (Outcome.thrown m, [Event.stackByName name])
         | Outcome.ok none => (Outcome.ok none, [Event.stackByName name])
         | Outcome.ok (some st) =>
           (Outcome.ok (some (JSValue.num st.Id)), [Event.stackByName name]))
      | v => (Outcome.ok (some v), [])
    match afterLookup with
    | (Outcome.thrown m, tr2) => (Outcome.thrown m, tr ++ tr2)
    | (Outcome.ok none, tr2) => (Outcome.ok none, tr ++ tr2)
    | (Outcome.ok (some finalId), tr2) =>
      let req := Request.stackDelete finalId envV
      match w.http req with
      | Outcome.ok payload => (Outcome.ok (some payload), tr ++ tr2 ++ [Event.http req])
      | Outcome.thrown _ => (Outcome.ok none, tr ++ tr2 ++ [Event.http req])

/-- Embedding of startContainer from src/unnamed/part_001
(lines 144-162): no containerId validation; resolve an absent
environment and abort on null; POST the start request, catching a
transport throw as false. -/
def startContainer (w : World) (containerId environmentId : JSValue) :
    Outcome Bool × List Event :=
  match resolveIfAbsent w environmentId with
  | (Outcome.thrown m, tr) => (Outcome.thrown m, tr)
  | (Outcome.ok none, tr) => (Outcome.ok false, tr)
  | (Outcome.ok (some envV), tr) =>
    let req := Request.containerStart containerId envV
    match w.http req with
    | Outcome.ok _ => (Outcome.ok true, tr ++ [Event.http req])
    | Outcome.thrown _ => (Outcome.ok false, tr ++ [Event.http req])

/-- Embedding of stopContainer from src/unnamed/part_001
(lines 170-188): same shape as startContainer with the stop endpoint. -/
def stopContainer (w : World) (containerId environmentId : JSValue) :
    Outcome Bool × List Event :=
  match resolveIfAbsent w environmentId with
  | (Outcome.thrown m, tr) => (Outcome.thrown m, tr)
  | (Outcome.ok none, tr) => (Outcome.ok false, tr)
  | (Outcome.ok (some envV), tr) =>
    let req := Request.containerStop containerId envV
    match w.http req with
    | Outcome.ok _ => (Outcome.ok true, tr ++ [Event.http req])
    | Outcome.thrown _ => (Outcome.ok false, tr ++ [Event.http req])

/-- Embedding of removeContainer from src/unnamed/part_001
(lines 197-221): resolve an absent environment and abort on null; DELETE
with the force and v query flags appended only when true, catching a
throw as false. -/
def removeContainer (w : World) (containerId environmentId : JSValue)
    (force removeVolumes : Bool) : Outcome Bool × List Event :=
  match resolveIfAbsent w environmentId with
  | (Outcome.thrown m, tr) => (Outcome.thrown m, tr)
  | (Outcome.ok none, tr) => (Outcome.ok false, tr)
  | (Outcome.ok (some envV), tr) =>
    let req := Request.containerRemove containerId envV force removeVolumes
    match w.http req with
    | Outcome.ok _ => (Outcome.ok true, tr ++ [Event.http req])
    | Outcome.thrown _ => (Outcome.ok false, tr ++ [Event.http req])

/-- Embedding of killContainer from src/unnamed/part_001
(lines 230-249): resolve an absent environment and abort on null; POST
the kill request with the signal query value, catching a throw as
false. -/
def killContainer (w : World) (containerId environmentId : JSValue)
    (sig : String) : Outcome Bool × List Event :=
  match resolveIfAbsent w environmentId with
  | (Outcome.thrown m, tr) => (Outcome.thrown m, tr)
  | (Outcome.ok none, tr) => (Outcome.ok false, tr)
  | (Outcome.ok (some envV), tr) =>
    let req := Request.containerKill containerId envV sig
    match w.http req with
    | Outcome.ok _ => (Outcome.ok true, tr ++ [Event.http req])
    | Outcome.thrown _ => (Outcome.ok false, tr ++ [Event.http req])

/-- Embedding of pauseContainer from src/unnamed/part_001
(lines 257-276). -/
def pauseContainer (w : World) (containerId environmentId : JSValue) :
    Outcome Bool × List Event :=
  match resolveIfAbsent w environmentId with
  | (Outcome.thrown m, tr) => (Outcome.thrown m, tr)
  | (Outcome.ok none, tr) => (Outcome.ok false, tr)
  | (Outcome.ok (some envV), tr) =>
    let req := Request.containerPause containerId envV
    match w.http req with
    | Outcome.ok _ => (Outcome.ok true, tr ++ [Event.http req])
    | Outcome.thrown _ => (Outcome.ok false, tr ++ [Event.http req])

/-- Embedding of unpauseContainer from src/unnamed/part_001
(lines 284-303). -/
def unpauseContainer (w : World) (containerId environmentId : JSValue) :
    Outcome Bool × List Event :=
  match resolveIfAbsent w environmentId with
  | (Outcome.thrown m, tr) => (Outcome.thrown m, tr)
  | (Outcome.ok none, tr) => (Outcome.ok false, tr)
  | (Outcome.ok (some envV), tr) =>
    let req := Request.containerUnpause containerId envV
    match w.http req with
    | Outcome.ok _ => (Outcome.ok true, tr ++ [Event.http req])
    | Outcome.thrown _ => (Outcome.ok false, tr ++ [Event.http req])

/-- Embedding of restartContainer from src/unnamed/part_001
(lines 312-331): resolve an absent environment and abort on null; POST
the restart request whose t query value is the JavaScript rendering of
timeout divided by 1000 at precision 2, catching a throw as false.  The
timeout parameter (milliseconds, source default 10000) is modelled as an
exact rational. -/
def restartContainer (w : World) (containerId environmentId : JSValue)
    (timeout : ℚ) : Outcome Bool × List Event :=
  match resolveIfAbsent w environmentId with
  | (Outcome.thrown m, tr) => (Outcome.thrown m, tr)
  | (Outcome.ok none, tr) => (Outcome.ok false, tr)
  | (Outcome.ok (some envV), tr) =>
    let req := Request.containerRestart containerId envV
      (jsToPrecision2 (timeout / 1000))
    match w.http req with
    | Outcome.ok _ => (Outcome.ok true, tr ++ [Event.http req])
    | Outcome.thrown _ => (Outcome.ok false, tr ++ [Event.http req])

end ApiCore

/-- Absence of raised exceptions in the non-transport collaborators: the
environment resolver, the two readers and the two stack lookup helpers
all return normally (the transport is left unconstrained). -/
def World.noCollabThrow (w : World) : Prop :=
  w.ensureEnvId.isThrown = false ∧
  w.getStacks.isThrown = false ∧
  w.getContainers.isThrown = false ∧
  (∀ i e, (w.getStackById i e).isThrown = false) ∧
  (∀ s, (w.getStackByName s).isThrown = false)

/-- Collaborator behaviour where every call succeeds: one environment
with id 1, one stack (id 7, name web), one running container named
test-container, lookups that hit that stack, and a transport returning
payload 7. -/
def okWorld : World :=
  { ensureEnvId := Outcome.ok (some 1)
    getStacks := Outcome.ok (some [Stack.mk 7 "web"])
    getContainers := Outcome.ok (some [Container.mk "abc123" ["/test-container"] "running"])
    getStackById := fun _ _ => Outcome.ok (some (Stack.mk 7 "web"))
    getStackByName := fun _ => Outcome.ok (some (Stack.mk 7 "web"))
    http := fun _ => Outcome.ok 7 }

/-- Like okWorld, but the container stop endpoint raises. -/
def stopFailWorld : World :=
  { okWorld with
    http := fun r =>
      match r with
      | Request.containerStop _ _ => Outcome.thrown "stop failed"
      | _ => Outcome.ok 7 }

/-- Like okWorld, but both the stack stop and the stack start endpoints
raise, so both wrapped sub-operations report false. -/
def bothFailWorld : World :=
  { okWorld with
    http := fun r =>
      match r with
      | Request.stackStop _ _ => Outcome.thrown "stop refused"
      | Request.stackStart _ _ => Outcome.thrown "start refused"
      | _ => Outcome.ok 7 }

/-- Like okWorld, but the only container is not running and has a name
that does not mention test-container. -/
def exitedWorld : World :=
  { okWorld with
    getContainers := Outcome.ok (some [Container.mk "xyz789" ["/other-container"] "exited"]) }

/-- Like okWorld, but both stack lookup helpers find nothing. -/
def lookupMissWorld : World :=
  { okWorld with
    getStackById := fun _ _ => Outcome.ok none
    getStackByName := fun _ => Outcome.ok none }

/-- Like okWorld, but the lookup by id raises. -/
def lookupThrowWorld : World :=
  { okWorld with
    getStackById := fun _ _ => Outcome.thrown "lookup failure" }

/-- Helper: a number argument passes the resolution step unchanged with
no resolver call. -/
theorem resolveIfAbsent_num (w : World) (e : ℚ) :
    resolveIfAbsent w (JSValue.num e) = (Outcome.ok (some (JSValue.num e)), []) := rfl

/-- Helper: when the resolution step returns a raised outcome, the
resolver itself raised with the same message. -/
theorem resolveIfAbsent_thrown (w : World) (v : JSValue) (m : String) (tr : List Event)
    (h : resolveIfAbsent w v = (Outcome.thrown m, tr)) :
    w.ensureEnvId = Outcome.thrown m := by
  cases v <;> simp [resolveIfAbsent] at h <;>
    (cases he : w.ensureEnvId with
     | thrown k =>
       rw [he] at h
       simp at h
       rw [h.1]
     | ok o =>
       rw [he] at h
       cases o <;> simp at h)

/-- Helper: the empty pattern is a substring of every string. -/
theorem strIncludes_empty (s : String) : strIncludes s "" = true := by
  cases h : s.data with
  | nil => simp [strIncludes, h, leadsWith]
  | cons c cs => simp [strIncludes, h, leadsWith]

/-- Helper: the validated stop wrapper at a positive numeric id and a
numeric environment issues exactly the stop request and converts a
transport throw into false. -/
theorem mixin_stopStack_pos_num (w : World) (q e : ℚ) (hq : 0 < q) :
    Mixin.stopStack w (JSValue.num q) (JSValue.num e) =
      ((match w.http (Request.stackStop (JSValue.num q) (JSValue.num e)) with
        | Outcome.ok _ => Outcome.ok true
        | Outcome.thrown _ => Outcome.ok false),
       [Event.http (Request.stackStop (JSValue.num q) (JSValue.num e))]) := by
  have h1 : invalidStackId (JSValue.num q) = false := by
    simp [invalidStackId, decide_eq_false_iff_not]
    exact hq
  simp only [Mixin.stopStack, h1, invalidOptEnvId, resolveIfAbsent_num,
    Bool.false_eq_true, if_false]
  cases w.http (Request.stackStop (JSValue.num q) (JSValue.num e)) <;> simp

/-- Helper: the validated start wrapper at a positive numeric id and a
numeric environment issues exactly the start request and converts a
transport throw into false. -/
theorem mixin_startStack_pos_num (w : World) (q e : ℚ) (hq : 0 < q) :
    Mixin.startStack w (JSValue.num q) (JSValue.num e) =
      ((match w.http (Request.stackStart (JSValue.num q) (JSValue.num e)) with
        | Outcome.ok _ => Outcome.ok true
        | Outcome.thrown _ => Outcome.ok false),
       [Event.http (Request.stackStart (JSValue.num q) (JSValue.num e))]) := by
  have h1 : invalidStackId (JSValue.num q) = false := by
    simp [invalidStackId, decide_eq_false_iff_not]
    exact hq
  simp only [Mixin.startStack, h1, invalidOptEnvId, resolveIfAbsent_num,
    Bool.false_eq_true, if_false]
  cases w.http (Request.stackStart (JSValue.num q) (JSValue.num e)) <;> simp

/-- Claim C1: every stack-control operation reaches the transport only
with a concrete environment id; in particular stopStack called with an
undefined environmentId never issues a request whose endpointId is
unresolved.  The api-core stopStack (src/src/api.ts lines 73-88 and
src/unnamed/part_001 lines 367-382) violates this: its guard checks only
for null, so with an undefined environmentId it issues the stop request
with the literal undefined as endpointId and never calls the resolver.
This theorem evaluates the embedded code at that failing input. -/
theorem stopStack_undefined_env_issues_endpointId_undefined :
    ApiCore.stopStack okWorld (JSValue.num 5) JSValue.jsUndefined =
      (Outcome.ok true,
       [Event.http (Request.stackStop (JSValue.num 5) JSValue.jsUndefined)]) ∧
    Event.resolveEnv ∉ (ApiCore.stopStack okWorld (JSValue.num 5) JSValue.jsUndefined).2 := by
  exact ⟨rfl, by decide⟩

/-- Claim C3 counterexample: in cleanupExistingContainer the stop and
delete calls are not independent.  With a matched running container
whose stop call raises, the one surrounding try catch ends the
operation: the result is false and no delete request appears in the
trace, refuting the claim that a stop failure does not prevent the
delete attempt. -/
theorem cleanup_stop_failure_prevents_delete_counterexample :
    ApiCore.cleanupExistingContainer stopFailWorld "test-container" (JSValue.num 1) =
      (Outcome.ok false,
       [Event.fetchContainers true,
        Event.http (Request.containerStop (JSValue.str "abc123") (JSValue.num 1))]) ∧
    Event.http (Request.containerDelete (JSValue.str "abc123") (JSValue.num 1)) ∉
      (ApiCore.cleanupExistingContainer stopFailWorld "test-container" (JSValue.num 1)).2 := by
  exact ⟨rfl, by decide⟩

/-- Claim C4 counterexample: deleteStack does not reject an argument
that is neither a positive finite number nor a non-empty string.  At the
boolean argument true (with an explicit environment) the code performs
no lookup, issues the delete request with the raw boolean interpolated,
and returns the response payload instead of undefined. -/
theorem deleteStack_no_validation_counterexample :
    ApiCore.deleteStack okWorld (JSValue.boolean true) (JSValue.num 1) =
      (Outcome.ok (some 7),
       [Event.http (Request.stackDelete (JSValue.boolean true) (JSValue.num 1))]) := rfl

/-- Claim C5 counterexample: the api-core startContainer performs no
containerId validation.  At the empty (hence non-numeric and invalid)
container id with a valid environment it issues the start request and
returns true, refuting the claim that every control operation returns a
falsy value with zero network calls on such inputs. -/
theorem startContainer_invalid_id_issues_call_counterexample :
    ApiCore.startContainer okWorld (JSValue.str "") (JSValue.num 1) =
      (Outcome.ok true,
       [Event.http (Request.containerStart (JSValue.str "") (JSValue.num 1))]) ∧
    (ApiCore.startContainer okWorld (JSValue.str "") (JSValue.num 1)).2 ≠ [] := by
  exact ⟨rfl, by decide⟩

/-- Claim C6 counterexample: cleanupExistingContainer does not validate
its name argument.  At the empty name it resolves the environment,
fetches the container list, matches the first container through the
empty-substring test, deletes it and returns true, instead of returning
false before any side effect. -/
theorem cleanup_empty_name_counterexample :
    ApiCore.cleanupExistingContainer exitedWorld "" JSValue.jsUndefined =
      (Outcome.ok true,
       [Event.resolveEnv, Event.fetchContainers true,
        Event.http (Request.containerDelete (JSValue.str "xyz789") (JSValue.num 1))]) := rfl

/-- Claim C7 counterexample: deleteStack calls the stack lookup helper
outside its try block, so a raised lookup propagates to the caller
instead of being converted to the falsy failure value. -/
theorem deleteStack_propagates_lookup_throw_counterexample :
    ApiCore.deleteStack lookupThrowWorld (JSValue.num 3) JSValue.jsUndefined =
      (Outcome.thrown "lookup failure",
       [Event.resolveEnv, Event.stackById (JSValue.num 3) (JSValue.num 1)]) := rfl

/-- Claim C2: redeployStack at a positive stackId and a resolved
(numeric) environment returns false with no stop and no start request
when the fetched stack list is unavailable (undefined or raised) or has
no entry with matching Id; when a matching entry exists it attempts the
stop request (whose failure is tolerated: the trace and result are the
same for either transport outcome), sleeps the fixed 2000 ms delay, then
attempts the start request, the outer catch turning a raised start into
false. -/
theorem redeployStack_locate_stop_settle_start
    (w : World) (q e : ℚ) (hq : 0 < q) :
    (w.getStacks = Outcome.ok none →
       Mixin.redeployStack w (JSValue.num q) (JSValue.num e) =
         (Outcome.ok false, [Event.fetchStacks])) ∧
    (∀ m, w.getStacks = Outcome.thrown m →
       Mixin.redeployStack w (JSValue.num q) (JSValue.num e) =
         (Outcome.ok false, [Event.fetchStacks])) ∧
    (∀ l, w.getStacks = Outcome.ok (some l) →
       l.find? (fun s => decide (s.Id = q)) = none →
       Mixin.redeployStack w (JSValue.num q) (JSValue.num e) =
         (Outcome.ok false, [Event.fetchStacks])) ∧
    (∀ l st, w.getStacks = Outcome.ok (some l) →
       l.find? (fun s => decide (s.Id = q)) = some st →
       Mixin.redeployStack w (JSValue.num q) (JSValue.num e) =
         (Outcome.ok true,
          [Event.fetchStacks,
           Event.http (Request.stackStop (JSValue.num q) (JSValue.num e)),
           Event.sleep 2000,
           Event.http (Request.stackStart (JSValue.num q) (JSValue.num e))])) := by
  have hq' : ¬ (q ≤ 0) := not_le.mpr hq
  refine ⟨?_, ?_, ?_, ?_⟩
  · intro hs
    simp [Mixin.redeployStack, Mixin.redeployBody, hq', invalidOptEnvId, hs]
  · intro m hs
    simp [Mixin.redeployStack, Mixin.redeployBody, hq', invalidOptEnvId, hs]
  · intro l hs hf
    simp [Mixin.redeployStack, Mixin.redeployBody, hq', invalidOptEnvId, hs, hf]
  · intro l st hs hf
    simp only [Mixin.redeployStack, Mixin.redeployBody, hq', if_false, invalidOptEnvId,
      Bool.false_eq_true, reduceIte, hs, hf,
      mixin_stopStack_pos_num w q e hq, mixin_startStack_pos_num w q e hq]
    cases w.http (Request.stackStart (JSValue.num q) (JSValue.num e)) <;>
      cases w.http (Request.stackStop (JSValue.num q) (JSValue.num e)) <;>
      simp

/-- Claim C2 witness: in the all-success behaviour with the one stack of
id 7, redeployStack at stackId 7 and environment 1 performs exactly the
locate, stop, settle, start sequence and returns true. -/
theorem redeployStack_locate_stop_settle_start_witness :
    (0 : ℚ) < 7 ∧
    okWorld.getStacks = Outcome.ok (some [Stack.mk 7 "web"]) ∧
    [Stack.mk 7 "web"].find? (fun s => decide (s.Id = 7)) = some (Stack.mk 7 "web") ∧
    Mixin.redeployStack okWorld (JSValue.num 7) (JSValue.num 1) =
      (Outcome.ok true,
       [Event.fetchStacks,
        Event.http (Request.stackStop (JSValue.num 7) (JSValue.num 1)),
        Event.sleep 2000,
        Event.http (Request.stackStart (JSValue.num 7) (JSValue.num 1))]) :=
  ⟨by decide, rfl, by decide,
   (redeployStack_locate_stop_settle_start okWorld 7 1 (by decide)).2.2.2
     [Stack.mk 7 "web"] (Stack.mk 7 "web") rfl (by decide)⟩

/-- Claim C10: redeployStack reports true whenever the target stack is
present in the fetched list, for every transport behaviour: the boolean
results of the stop and start sub-operations are never inspected, so a
redeploy whose sub-operations failed without raising is still reported
as success. -/
theorem redeployStack_true_despite_substep_false
    (w : World) (q e : ℚ) (hq : 0 < q) (l : List Stack) (st : Stack)
    (hl : w.getStacks = Outcome.ok (some l))
    (hf : l.find? (fun s => decide (s.Id = q)) = some st) :
    (Mixin.redeployStack w (JSValue.num q) (JSValue.num e)).1 = Outcome.ok true := by
  have hq' : ¬ (q ≤ 0) := not_le.mpr hq
  simp only [Mixin.redeployStack, Mixin.redeployBody, hq', if_false, invalidOptEnvId,
    Bool.false_eq_true, reduceIte, hl, hf,
    mixin_startStack_pos_num w q e hq]
  cases w.http (Request.stackStart (JSValue.num q) (JSValue.num e)) <;> simp

/-- Claim C10 witness: with both the stack stop and stack start
endpoints raising, the wrapped sub-operations each report false, yet
redeployStack at the present stack 7 reports true. -/
theorem redeployStack_true_despite_substep_false_witness :
    (Mixin.stopStack bothFailWorld (JSValue.num 7) (JSValue.num 1)).1 = Outcome.ok false ∧
    (Mixin.startStack bothFailWorld (JSValue.num 7) (JSValue.num 1)).1 = Outcome.ok false ∧
    (0 : ℚ) < 7 ∧
    bothFailWorld.getStacks = Outcome.ok (some [Stack.mk 7 "web"]) ∧
    (Mixin.redeployStack bothFailWorld (JSValue.num 7) (JSValue.num 1)).1 = Outcome.ok true :=
  ⟨rfl, rfl, by decide, rfl,
   redeployStack_true_despite_substep_false bothFailWorld 7 1 (by decide)
     [Stack.mk 7 "web"] (Stack.mk 7 "web") rfl (by decide)⟩

/-- Claim C3 (amended): the stop and delete steps of
cleanupExistingContainer share the one surrounding try catch, so when
the matched container is running and the stop request raises, the
operation returns false and the delete request is never attempted. -/
theorem cleanup_stop_failure_aborts_delete
    (w : World) (name : String) (e : ℚ) (c : Container) (cs : List Container) (m : String)
    (he : w.ensureEnvId = Outcome.ok (some e))
    (hc : w.getContainers = Outcome.ok (some cs))
    (hf : cs.find? (fun c2 =>
        c2.Names.any (fun nm => strIncludes nm name) ||
        c2.Names.any (fun nm => nm == "/" ++ name)) = some c)
    (hrun : c.State = "running")
    (hstop : w.http (Request.containerStop (JSValue.str c.Id) (JSValue.num e)) =
      Outcome.thrown m) :
    ApiCore.cleanupExistingContainer w name JSValue.jsUndefined =
      (Outcome.ok false,
       [Event.resolveEnv, Event.fetchContainers true,
        Event.http (Request.containerStop (JSValue.str c.Id) (JSValue.num e))]) ∧
    ∀ r, Event.http (Request.containerDelete r (JSValue.num e)) ∉
        (ApiCore.cleanupExistingContainer w name JSValue.jsUndefined).2 := by
  have h1 : ApiCore.cleanupExistingContainer w name JSValue.jsUndefined =
      (Outcome.ok false,
       [Event.resolveEnv, Event.fetchContainers true,
        Event.http (Request.containerStop (JSValue.str c.Id) (JSValue.num e))]) := by
    simp [ApiCore.cleanupExistingContainer, resolveIfAbsent, he, hc, hf, hrun, hstop]
  refine ⟨h1, ?_⟩
  intro r
  rw [h1]
  simp

/-- Claim C3 witness: concrete run of the amended statement with the
running test-container whose stop endpoint raises and an environment
resolved from undefined. -/
theorem cleanup_stop_failure_aborts_delete_witness :
    stopFailWorld.ensureEnvId = Outcome.ok (some 1) ∧
    ApiCore.cleanupExistingContainer stopFailWorld "test-container" JSValue.jsUndefined =
      (Outcome.ok false,
       [Event.resolveEnv, Event.fetchContainers true,
        Event.http (Request.containerStop (JSValue.str "abc123") (JSValue.num 1))]) :=
  ⟨rfl,
   (cleanup_stop_failure_aborts_delete stopFailWorld "test-container" 1
     (Container.mk "abc123" ["/test-container"] "running")
     [Container.mk "abc123" ["/test-container"] "running"] "stop failed"
     rfl rfl (by decide) rfl rfl).1⟩

/-- Claim C4 (amended): deleteStack performs no argument-shape
validation.  With an omitted environment it always resolves first; a
numeric argument (however invalid as an id, for example zero or
negative) is then passed to the lookup by id and rejected with undefined
only because the lookup finds nothing; a string argument (however empty)
is passed to the lookup by name likewise; an argument of any other type
(here a boolean) undergoes no lookup at all and the delete request is
issued with the raw value, its payload returned. -/
theorem deleteStack_resolves_and_looks_up_without_validation
    (w : World) (e : ℚ) (he : w.ensureEnvId = Outcome.ok (some e)) :
    (∀ q : ℚ, w.getStackById (JSValue.num q) (JSValue.num e) = Outcome.ok none →
       ApiCore.deleteStack w (JSValue.num q) JSValue.jsUndefined =
         (Outcome.ok none,
          [Event.resolveEnv, Event.stackById (JSValue.num q) (JSValue.num e)])) ∧
    (∀ s, w.getStackByName s = Outcome.ok none →
       ApiCore.deleteStack w (JSValue.str s) JSValue.jsUndefined =
         (Outcome.ok none, [Event.resolveEnv, Event.stackByName s])) ∧
    (∀ b n, w.http (Request.stackDelete (JSValue.boolean b) (JSValue.num e)) =
        Outcome.ok n →
       ApiCore.deleteStack w (JSValue.boolean b) JSValue.jsUndefined =
         (Outcome.ok (some n),
          [Event.resolveEnv,
           Event.http (Request.stackDelete (JSValue.boolean b) (JSValue.num e))])) := by
  refine ⟨?_, ?_, ?_⟩
  · intro q hid
    simp [ApiCore.deleteStack, resolveIfAbsent, he, hid]
  · intro s hname
    simp [ApiCore.deleteStack, resolveIfAbsent, he, hname]
  · intro b n hhttp
    simp [ApiCore.deleteStack, resolveIfAbsent, he, hhttp]

/-- Claim C4 witness: at the non-positive numeric argument zero the code
resolves the environment and performs the by-id lookup before rejecting,
contradicting immediate rejection but matching the amended statement. -/
theorem deleteStack_no_validation_witness :
    lookupMissWorld.ensureEnvId = Outcome.ok (some 1) ∧
    ApiCore.deleteStack lookupMissWorld (JSValue.num 0) JSValue.jsUndefined =
      (Outcome.ok none,
       [Event.resolveEnv, Event.stackById (JSValue.num 0) (JSValue.num 1)]) :=
  ⟨rfl,
   (deleteStack_resolves_and_looks_up_without_validation lookupMissWorld 1 rfl).1 0 rfl⟩

/-- Claim C5 (amended): the four validated StackControlsMixin operations
return false and issue zero collaborator calls for every non-positive,
NaN, or non-numeric stackId; the api-core container and stack operations
perform no such validation (see the separate counterexample). -/
theorem mixin_stack_ops_reject_invalid_stackId
    (w : World) (v : JSValue) (hv : invalidStackId v = true)
    (cc env : JSValue) (pull : Bool) :
    Mixin.startStack w v env = (Outcome.ok false, []) ∧
    Mixin.stopStack w v env = (Outcome.ok false, []) ∧
    Mixin.updateStack w v cc env pull = (Outcome.ok false, []) ∧
    Mixin.redeployStack w v env = (Outcome.ok false, []) := by
  refine ⟨?_, ?_, ?_, ?_⟩
  · simp [Mixin.startStack, hv]
  · simp [Mixin.stopStack, hv]
  · simp [Mixin.updateStack, hv]
  · cases v with
    | num q =>
      have hq : q ≤ 0 := by
        have := hv
        simp [invalidStackId] at this
        exact this
      simp [Mixin.redeployStack, hq]
    | nan => simp [Mixin.redeployStack]
    | str s => simp [Mixin.redeployStack]
    | boolean b => simp [Mixin.redeployStack]
    | jsNull => simp [Mixin.redeployStack]
    | jsUndefined => simp [Mixin.redeployStack]

/-- Claim C5 witness: the amended statement at the non-positive stackId
zero with an arbitrary concrete environment argument. -/
theorem mixin_stack_ops_reject_invalid_stackId_witness :
    invalidStackId (JSValue.num 0) = true ∧
    Mixin.startStack okWorld (JSValue.num 0) (JSValue.num 1) = (Outcome.ok false, []) ∧
    Mixin.redeployStack okWorld (JSValue.num 0) (JSValue.num 1) = (Outcome.ok false, []) :=
  ⟨by decide,
   (mixin_stack_ops_reject_invalid_stackId okWorld (JSValue.num 0) (by decide)
     (JSValue.str "x") (JSValue.num 1) true).1,
   (mixin_stack_ops_reject_invalid_stackId okWorld (JSValue.num 0) (by decide)
     (JSValue.str "x") (JSValue.num 1) true).2.2.2⟩

/-- Claim C6 (amended): cleanupExistingContainer performs no validation
of its name argument: for every name, the empty name included, it first
resolves an omitted environment and fetches the container list (shown on
the empty list), and at the empty name the substring test matches the
first listed container, which is then cleaned up (shown on a non-running
head container, which is deleted and true returned). -/
theorem cleanup_no_name_validation
    (w : World) (e : ℚ) (he : w.ensureEnvId = Outcome.ok (some e)) :
    (∀ name, w.getContainers = Outcome.ok (some []) →
       ApiCore.cleanupExistingContainer w name JSValue.jsUndefined =
         (Outcome.ok false, [Event.resolveEnv, Event.fetchContainers true])) ∧
    (∀ cid nm rest n,
       w.getContainers = Outcome.ok (some (Container.mk cid [nm] "exited" :: rest)) →
       w.http (Request.containerDelete (JSValue.str cid) (JSValue.num e)) = Outcome.ok n →
       ApiCore.cleanupExistingContainer w "" JSValue.jsUndefined =
         (Outcome.ok true,
          [Event.resolveEnv, Event.fetchContainers true,
           Event.http (Request.containerDelete (JSValue.str cid) (JSValue.num e))])) := by
  refine ⟨?_, ?_⟩
  · intro name hc
    simp [ApiCore.cleanupExistingContainer, resolveIfAbsent, he, hc]
  · intro cid nm rest n hc hh
    have hmatch : (Container.mk cid [nm] "exited" :: rest).find? (fun c2 =>
        c2.Names.any (fun nm2 => strIncludes nm2 "") ||
        c2.Names.any (fun nm2 => nm2 == "/")) =
        some (Container.mk cid [nm] "exited") := by
      simp [List.find?, strIncludes_empty]
    simp [ApiCore.cleanupExistingContainer, resolveIfAbsent, he, hc, hmatch, hh]

/-- Claim C6 witness: the amended statement at the empty name against
the single exited container, which is resolved, fetched, matched through
the empty-substring test and deleted. -/
theorem cleanup_no_name_validation_witness :
    exitedWorld.ensureEnvId = Outcome.ok (some 1) ∧
    ApiCore.cleanupExistingContainer exitedWorld "" JSValue.jsUndefined =
      (Outcome.ok true,
       [Event.resolveEnv, Event.fetchContainers true,
        Event.http (Request.containerDelete (JSValue.str "xyz789") (JSValue.num 1))]) :=
  ⟨rfl,
   (cleanup_no_name_validation exitedWorld 1 rfl).2 "xyz789" "/other-container" [] 7
     rfl rfl⟩

/-- Helper: startStack of the api core never raises when the resolver
does not. -/
theorem aux_apiStartStack_ok (w : World) (hE : w.ensureEnvId.isThrown = false)
    (a b : JSValue) : ((ApiCore.startStack w a b).1).isThrown = false := by
  rcases hr : resolveIfAbsent w b with ⟨o, tr⟩
  cases o with
  | thrown m =>
    exfalso
    rw [resolveIfAbsent_thrown w b m tr hr] at hE
    simp [Outcome.isThrown] at hE
  | ok oe =>
    cases oe with
    | none => simp [ApiCore.startStack, hr, Outcome.isThrown]
    | some envV =>
      cases hh : w.http (Request.stackStart a envV) <;>
        simp [ApiCore.startStack, hr, hh, Outcome.isThrown]

/-- Helper: stopStack of the api core never raises. -/
theorem aux_apiStopStack_ok (w : World) (a b : JSValue) :
    ((ApiCore.stopStack w a b).1).isThrown = false := by
  by_cases hb : b = JSValue.jsNull
  · simp [ApiCore.stopStack, hb, Outcome.isThrown]
  · cases hh : w.http (Request.stackStop a b) <;>
      simp [ApiCore.stopStack, hb, hh, Outcome.isThrown]

/-- Helper: cleanupExistingContainer never raises (its whole body sits
in one try block). -/
theorem aux_cleanup_ok (w : World) (n : String) (b : JSValue) :
    ((ApiCore.cleanupExistingContainer w n b).1).isThrown = false := by
  rcases hr : resolveIfAbsent w b with ⟨o, tr⟩
  cases o with
  | thrown m => simp [ApiCore.cleanupExistingContainer, hr, Outcome.isThrown]
  | ok oe =>
    cases oe with
    | none => simp [ApiCore.cleanupExistingContainer, hr, Outcome.isThrown]
    | some envV =>
      cases hc : w.getContainers with
      | thrown m => simp [ApiCore.cleanupExistingContainer, hr, hc, Outcome.isThrown]
      | ok co =>
        cases co with
        | none => simp [ApiCore.cleanupExistingContainer, hr, hc, Outcome.isThrown]
        | some cs =>
          cases hf : cs.find? (fun c =>
              c.Names.any (fun nm => strIncludes nm n) ||
              c.Names.any (fun nm => nm == "/" ++ n)) with
          | none => simp [ApiCore.cleanupExistingContainer, hr, hc, hf, Outcome.isThrown]
          | some c =>
            by_cases hs : c.State = "running"
            · cases h1 : w.http (Request.containerStop (JSValue.str c.Id) envV) with
              | thrown m =>
                simp [ApiCore.cleanupExistingContainer, hr, hc, hf, hs, h1, Outcome.isThrown]
              | ok x =>
                cases h2 : w.http (Request.containerDelete (JSValue.str c.Id) envV) <;>
                  simp [ApiCore.cleanupExistingContainer, hr, hc, hf, hs, h1, h2, Outcome.isThrown]
            · cases h2 : w.http (Request.containerDelete (JSValue.str c.Id) envV) <;>
                simp [ApiCore.cleanupExistingContainer, hr, hc, hf, hs, h2, Outcome.isThrown]

/-- Helper: deleteStack never raises when the resolver and the two
lookup helpers do not. -/
theorem aux_deleteStack_ok (w : World) (hE : w.ensureEnvId.isThrown = false)
    (hId : ∀ i e, (w.getStackById i e).isThrown = false)
    (hName : ∀ s, (w.getStackByName s).isThrown = false)
    (a b : JSValue) : ((ApiCore.deleteStack w a b).1).isThrown = false := by
  rcases hr : resolveIfAbsent w b with ⟨o, tr⟩
  cases o with
  | thrown m =>
    exfalso
    rw [resolveIfAbsent_thrown w b m tr hr] at hE
    simp [Outcome.isThrown] at hE
  | ok oe =>
    cases oe with
    | none => simp [ApiCore.deleteStack, hr, Outcome.isThrown]
    | some envV =>
      cases a with
      | num q =>
        cases hid : w.getStackById (JSValue.num q) envV with
        | thrown m =>
          exfalso
          have h3 := hId (JSValue.num q) envV
          rw [hid] at h3
          simp [Outcome.isThrown] at h3
        | ok so =>
          cases so with
          | none => simp [ApiCore.deleteStack, hr, hid, Outcome.isThrown]
          | some st =>
            cases hh : w.http (Request.stackDelete (JSValue.num q) envV) <;>
              simp [ApiCore.deleteStack, hr, hid, hh, Outcome.isThrown]
      | nan =>
        cases hid : w.getStackById JSValue.nan envV with
        | thrown m =>
          exfalso
          have h3 := hId JSValue.nan envV
          rw [hid] at h3
          simp [Outcome.isThrown] at h3
        | ok so =>
          cases so with
          | none => simp [ApiCore.deleteStack, hr, hid, Outcome.isThrown]
          | some st =>
            cases hh : w.http (Request.stackDelete JSValue.nan envV) <;>
              simp [ApiCore.deleteStack, hr, hid, hh, Outcome.isThrown]
      | str s =>
        cases hn : w.getStackByName s with
        | thrown m =>
          exfalso
          have h3 := hName s
          rw [hn] at h3
          simp [Outcome.isThrown] at h3
        | ok so =>
          cases so with
          | none => simp [ApiCore.deleteStack, hr, hn, Outcome.isThrown]
          | some st =>
            cases hh : w.http (Request.stackDelete (JSValue.num st.Id) envV) <;>
              simp [ApiCore.deleteStack, hr, hn, hh, Outcome.isThrown]
      | boolean bb =>
        cases hh : w.http (Request.stackDelete (JSValue.boolean bb) envV) <;>
          simp [ApiCore.deleteStack, hr, hh, Outcome.isThrown]
      | jsNull =>
        cases hh : w.http (Request.stackDelete JSValue.jsNull envV) <;>
          simp [ApiCore.deleteStack, hr, hh, Outcome.isThrown]
      | jsUndefined =>
        cases hh : w.http (Request.stackDelete JSValue.jsUndefined envV) <;>
          simp [ApiCore.deleteStack, hr, hh, Outcome.isThrown]

/-- Helper: the validated mixin startStack never raises when the
resolver does not. -/
theorem aux_mixinStartStack_ok (w : World) (hE : w.ensureEnvId.isThrown = false)
    (a b : JSValue) : ((Mixin.startStack w a b).1).isThrown = false := by
  by_cases h1 : invalidStackId a = true
  · simp [Mixin.startStack, h1, Outcome.isThrown]
  · by_cases h2 : invalidOptEnvId b = true
    · simp [Mixin.startStack, h1, h2, Outcome.isThrown]
    · rcases hr : resolveIfAbsent w b with ⟨o, tr⟩
      cases o with
      | thrown m =>
        exfalso
        rw [resolveIfAbsent_thrown w b m tr hr] at hE
        simp [Outcome.isThrown] at hE
      | ok oe =>
        cases oe with
        | none => simp [Mixin.startStack, h1, h2, hr, Outcome.isThrown]
        | some envV =>
          cases hh : w.http (Request.stackStart a envV) <;>
            simp [Mixin.startStack, h1, h2, hr, hh, Outcome.isThrown]

/-- Helper: the validated mixin stopStack never raises when the resolver
does not. -/
theorem aux_mixinStopStack_ok (w : World) (hE : w.ensureEnvId.isThrown = false)
    (a b : JSValue) : ((Mixin.stopStack w a b).1).isThrown = false := by
  by_cases h1 : invalidStackId a = true
  · simp [Mixin.stopStack, h1, Outcome.isThrown]
  · by_cases h2 : invalidOptEnvId b = true
    · simp [Mixin.stopStack, h1, h2, Outcome.isThrown]
    · rcases hr : resolveIfAbsent w b with ⟨o, tr⟩
      cases o with
      | thrown m =>
        exfalso
        rw [resolveIfAbsent_thrown w b m tr hr] at hE
        simp [Outcome.isThrown] at hE
      | ok oe =>
        cases oe with
        | none => simp [Mixin.stopStack, h1, h2, hr, Outcome.isThrown]
        | some envV =>
          cases hh : w.http (Request.stackStop a envV) <;>
            simp [Mixin.stopStack, h1, h2, hr, hh, Outcome.isThrown]

/-- Helper: the mixin updateStack never raises when the resolver does
not. -/
theorem aux_mixinUpdateStack_ok (w : World) (hE : w.ensureEnvId.isThrown = false)
    (a cc b : JSValue) (pull : Bool) :
    ((Mixin.updateStack w a cc b pull).1).isThrown = false := by
  by_cases h1 : invalidStackId a = true
  · simp [Mixin.updateStack, h1, Outcome.isThrown]
  · cases cc with
    | str content =>
      by_cases h2 : jsTrim content = ""
      · simp [Mixin.updateStack, h1, h2, Outcome.isThrown]
      · by_cases h3 : invalidOptEnvId b = true
        · cases he : w.ensureEnvId with
          | thrown m =>
            exfalso
            rw [he] at hE
            simp [Outcome.isThrown] at hE
          | ok oe =>
            cases oe with
            | none => simp [Mixin.updateStack, h1, h2, h3, he, Outcome.isThrown]
            | some q =>
              cases hh : w.http (Request.stackUpdate a (JSValue.num q)
                  (UpdateBody.mk content false pull)) <;>
                simp [Mixin.updateStack, h1, h2, h3, he, hh, Outcome.isThrown]
        · by_cases h4 : b = JSValue.jsNull
          · simp [Mixin.updateStack, h1, h2, h3, h4, invalidOptEnvId, Outcome.isThrown]
          · cases hh : w.http (Request.stackUpdate a b
                (UpdateBody.mk content false pull)) <;>
              simp [Mixin.updateStack, h1, h2, h3, h4, hh, Outcome.isThrown]
    | num q => simp [Mixin.updateStack, h1, Outcome.isThrown]
    | nan => simp [Mixin.updateStack, h1, Outcome.isThrown]
    | boolean bb => simp [Mixin.updateStack, h1, Outcome.isThrown]
    | jsNull => simp [Mixin.updateStack, h1, Outcome.isThrown]
    | jsUndefined => simp [Mixin.updateStack, h1, Outcome.isThrown]

/-- Helper: the redeploy try block never raises: every failure path is
caught into a false result. -/
theorem aux_redeployBody_ok (w : World) (q : ℚ) (envV : JSValue) (tr : List Event) :
    ((Mixin.redeployBody w q envV tr).1).isThrown = false := by
  cases hs : w.getStacks with
  | thrown m => simp [Mixin.redeployBody, hs, Outcome.isThrown]
  | ok so =>
    cases so with
    | none => simp [Mixin.redeployBody, hs, Outcome.isThrown]
    | some l =>
      cases hf : l.find? (fun s => decide (s.Id = q)) with
      | none => simp [Mixin.redeployBody, hs, hf, Outcome.isThrown]
      | some st =>
        cases hstart : (Mixin.startStack w (JSValue.num q) envV).1 <;>
          simp [Mixin.redeployBody, hs, hf, hstart, Outcome.isThrown]

/-- Helper: the mixin redeployStack never raises when the resolver does
not (a raised stop is swallowed by the inner catch and a raised start by
the outer one). -/
theorem aux_mixinRedeploy_ok (w : World) (hE : w.ensureEnvId.isThrown = false)
    (a b : JSValue) : ((Mixin.redeployStack w a b).1).isThrown = false := by
  cases a with
  | num q =>
    by_cases hq : q ≤ 0
    · simp [Mixin.redeployStack, hq, Outcome.isThrown]
    · by_cases h3 : invalidOptEnvId b = true
      · cases he : w.ensureEnvId with
        | thrown m =>
          exfalso
          rw [he] at hE
          simp [Outcome.isThrown] at hE
        | ok oe =>
          cases oe with
          | none => simp [Mixin.redeployStack, hq, h3, he, Outcome.isThrown]
          | some e2 =>
            have h6 := aux_redeployBody_ok w q (JSValue.num e2) [Event.resolveEnv]
            simp only [Mixin.redeployStack, hq, if_false, h3, Bool.false_eq_true,
              reduceIte, he]
            exact h6
      · by_cases h4 : b = JSValue.jsNull
        · simp [Mixin.redeployStack, hq, h3, h4, invalidOptEnvId, Outcome.isThrown]
        · have h6 := aux_redeployBody_ok w q b []
          simp only [Mixin.redeployStack, hq, if_false, h3, Bool.false_eq_true,
            reduceIte, h4]
          exact h6
  | nan => simp [Mixin.redeployStack, Outcome.isThrown]
  | str s => simp [Mixin.redeployStack, Outcome.isThrown]
  | boolean bb => simp [Mixin.redeployStack, Outcome.isThrown]
  | jsNull => simp [Mixin.redeployStack, Outcome.isThrown]
  | jsUndefined => simp [Mixin.redeployStack, Outcome.isThrown]

/-- Helper: startContainer never raises when the resolver does not. -/
theorem aux_startContainer_ok (w : World) (hE : w.ensureEnvId.isThrown = false)
    (a b : JSValue) : ((ApiCore.startContainer w a b).1).isThrown = false := by
  rcases hr : resolveIfAbsent w b with ⟨o, tr⟩
  cases o with
  | thrown m =>
    exfalso
    rw [resolveIfAbsent_thrown w b m tr hr] at hE
    simp [Outcome.isThrown] at hE
  | ok oe =>
    cases oe with
    | none => simp [ApiCore.startContainer, hr, Outcome.isThrown]
    | some envV =>
      cases hh : w.http (Request.containerStart a envV) <;>
        simp [ApiCore.startContainer, hr, hh, Outcome.isThrown]

/-- Helper: stopContainer never raises when the resolver does not. -/
theorem aux_stopContainer_ok (w : World) (hE : w.ensureEnvId.isThrown = false)
    (a b : JSValue) : ((ApiCore.stopContainer w a b).1).isThrown = false := by
  rcases hr : resolveIfAbsent w b with ⟨o, tr⟩
  cases o with
  | thrown m =>
    exfalso
    rw [resolveIfAbsent_thrown w b m tr hr] at hE
    simp [Outcome.isThrown] at hE
  | ok oe =>
    cases oe with
    | none => simp [ApiCore.stopContainer, hr, Outcome.isThrown]
    | some envV =>
      cases hh : w.http (Request.containerStop a envV) <;>
        simp [ApiCore.stopContainer, hr, hh, Outcome.isThrown]

/-- Helper: removeContainer never raises when the resolver does not. -/
theorem aux_removeContainer_ok (w : World) (hE : w.ensureEnvId.isThrown = false)
    (a b : JSValue) (f v : Bool) :
    ((ApiCore.removeContainer w a b f v).1).isThrown = false := by
  rcases hr : resolveIfAbsent w b with ⟨o, tr⟩
  cases o with
  | thrown m =>
    exfalso
    rw [resolveIfAbsent_thrown w b m tr hr] at hE
    simp [Outcome.isThrown] at hE
  | ok oe =>
    cases oe with
    | none => simp [ApiCore.removeContainer, hr, Outcome.isThrown]
    | some envV =>
      cases hh : w.http (Request.containerRemove a envV f v) <;>
        simp [ApiCore.removeContainer, hr, hh, Outcome.isThrown]

/-- Helper: killContainer never raises when the resolver does not. -/
theorem aux_killContainer_ok (w : World) (hE : w.ensureEnvId.isThrown = false)
    (a b : JSValue) (sg : String) :
    ((ApiCore.killContainer w a b sg).1).isThrown = false := by
  rcases hr : resolveIfAbsent w b with ⟨o, tr⟩
  cases o with
  | thrown m =>
    exfalso
    rw [resolveIfAbsent_thrown w b m tr hr] at hE
    simp [Outcome.isThrown] at hE
  | ok oe =>
    cases oe with
    | none => simp [ApiCore.killContainer, hr, Outcome.isThrown]
    | some envV =>
      cases hh : w.http (Request.containerKill a envV sg) <;>
        simp [ApiCore.killContainer, hr, hh, Outcome.isThrown]

/-- Helper: pauseContainer never raises when the resolver does not. -/
theorem aux_pauseContainer_ok (w : World) (hE : w.ensureEnvId.isThrown = false)
    (a b : JSValue) : ((ApiCore.pauseContainer w a b).1).isThrown = false := by
  rcases hr : resolveIfAbsent w b with ⟨o, tr⟩
  cases o with
  | thrown m =>
    exfalso
    rw [resolveIfAbsent_thrown w b m tr hr] at hE
    simp [Outcome.isThrown] at hE
  | ok oe =>
    cases oe with
    | none => simp [ApiCore.pauseContainer, hr, Outcome.isThrown]
    | some envV =>
      cases hh : w.http (Request.containerPause a envV) <;>
        simp [ApiCore.pauseContainer, hr, hh, Outcome.isThrown]

/-- Helper: unpauseContainer never raises when the resolver does not. -/
theorem aux_unpauseContainer_ok (w : World) (hE : w.ensureEnvId.isThrown = false)
    (a b : JSValue) : ((ApiCore.unpauseContainer w a b).1).isThrown = false := by
  rcases hr : resolveIfAbsent w b with ⟨o, tr⟩
  cases o with
  | thrown m =>
    exfalso
    rw [resolveIfAbsent_thrown w b m tr hr] at hE
    simp [Outcome.isThrown] at hE
  | ok oe =>
    cases oe with
    | none => simp [ApiCore.unpauseContainer, hr, Outcome.isThrown]
    | some envV =>
      cases hh : w.http (Request.containerUnpause a envV) <;>
        simp [ApiCore.unpauseContainer, hr, hh, Outcome.isThrown]

/-- Helper: restartContainer never raises when the resolver does not. -/
theorem aux_restartContainer_ok (w : World) (hE : w.ensureEnvId.isThrown = false)
    (a b : JSValue) (t : ℚ) :
    ((ApiCore.restartContainer w a b t).1).isThrown = false := by
  rcases hr : resolveIfAbsent w b with ⟨o, tr⟩
  cases o with
  | thrown m =>
    exfalso
    rw [resolveIfAbsent_thrown w b m tr hr] at hE
    simp [Outcome.isThrown] at hE
  | ok oe =>
    cases oe with
    | none => simp [ApiCore.restartContainer, hr, Outcome.isThrown]
    | some envV =>
      cases hh : w.http (Request.containerRestart a envV (jsToPrecision2 (t / 1000))) <;>
        simp [ApiCore.restartContainer, hr, hh, Outcome.isThrown]

/-- Claim C7 (amended): provided the environment resolver and the stack
lookup helpers return normally, no operation of the core ever raises:
every transport throw is caught at the boundary of the operation that
issued it and converted to the falsy failure value
(cleanupExistingContainer and the api-core stopStack need no proviso at
all).  The proviso is forced by the separate counterexample: deleteStack
calls the resolver and the lookups outside its try block, so their
raised exceptions propagate. -/
theorem core_ops_never_raise_without_collab_throw
    (w : World) (hw : World.noCollabThrow w) :
    (∀ a b, ((Mixin.startStack w a b).1).isThrown = false) ∧
    (∀ a b, ((Mixin.stopStack w a b).1).isThrown = false) ∧
    (∀ a cc b pull, ((Mixin.updateStack w a cc b pull).1).isThrown = false) ∧
    (∀ a b, ((Mixin.redeployStack w a b).1).isThrown = false) ∧
    (∀ a b, ((ApiCore.startStack w a b).1).isThrown = false) ∧
    (∀ a b, ((ApiCore.stopStack w a b).1).isThrown = false) ∧
    (∀ n b, ((ApiCore.cleanupExistingContainer w n b).1).isThrown = false) ∧
    (∀ a b, ((ApiCore.deleteStack w a b).1).isThrown = false) ∧
    (∀ a b, ((ApiCore.startContainer w a b).1).isThrown = false) ∧
    (∀ a b, ((ApiCore.stopContainer w a b).1).isThrown = false) ∧
    (∀ a b f v, ((ApiCore.removeContainer w a b f v).1).isThrown = false) ∧
    (∀ a b sg, ((ApiCore.killContainer w a b sg).1).isThrown = false) ∧
    (∀ a b, ((ApiCore.pauseContainer w a b).1).isThrown = false) ∧
    (∀ a b, ((ApiCore.unpauseContainer w a b).1).isThrown = false) ∧
    (∀ a b t, ((ApiCore.restartContainer w a b t).1).isThrown = false) := by
  obtain ⟨hE, hS, hC, hId, hName⟩ := hw
  exact ⟨fun a b => aux_mixinStartStack_ok w hE a b,
    fun a b => aux_mixinStopStack_ok w hE a b,
    fun a cc b pull => aux_mixinUpdateStack_ok w hE a cc b pull,
    fun a b => aux_mixinRedeploy_ok w hE a b,
    fun a b => aux_apiStartStack_ok w hE a b,
    fun a b => aux_apiStopStack_ok w a b,
    fun n b => aux_cleanup_ok w n b,
    fun a b => aux_deleteStack_ok w hE hId hName a b,
    fun a b => aux_startContainer_ok w hE a b,
    fun a b => aux_stopContainer_ok w hE a b,
    fun a b f v => aux_removeContainer_ok w hE a b f v,
    fun a b sg => aux_killContainer_ok w hE a b sg,
    fun a b => aux_pauseContainer_ok w hE a b,
    fun a b => aux_unpauseContainer_ok w hE a b,
    fun a b t => aux_restartContainer_ok w hE a b t⟩

/-- Claim C7 witness: the all-success collaborator behaviour satisfies
the proviso, and the operation of the counterexample (deleteStack at a
numeric id with an omitted environment) then terminates normally. -/
theorem core_ops_never_raise_witness :
    World.noCollabThrow okWorld ∧
    ((ApiCore.deleteStack okWorld (JSValue.num 3) JSValue.jsUndefined).1).isThrown = false := by
  have hw : World.noCollabThrow okWorld :=
    ⟨rfl, rfl, rfl, fun _ _ => rfl, fun _ => rfl⟩
  exact ⟨hw, (core_ops_never_raise_without_collab_throw okWorld hw).2.2.2.2.2.2.2.1
    (JSValue.num 3) JSValue.jsUndefined⟩

/-- Claim C8: whenever updateStack issues its update request, the body
carries Prune equal to false and StackFileContent exactly the
composeContent string the caller supplied, for every stackId, content,
environment argument and pull flag. -/
theorem updateStack_body_prune_false_literal_content
    (w : World) (q : ℚ) (content : String) (env : JSValue) (pull : Bool)
    (i ev : JSValue) (b : UpdateBody)
    (hmem : Event.http (Request.stackUpdate i ev b) ∈
      (Mixin.updateStack w (JSValue.num q) (JSValue.str content) env pull).2) :
    b.Prune = false ∧ b.StackFileContent = content := by
  by_cases h1 : invalidStackId (JSValue.num q) = true
  · simp [Mixin.updateStack, h1] at hmem
  · by_cases h2 : jsTrim content = ""
    · simp [Mixin.updateStack, h1, h2] at hmem
    · by_cases h3 : invalidOptEnvId env = true
      · cases he : w.ensureEnvId with
        | thrown m => simp [Mixin.updateStack, h1, h2, h3, he] at hmem
        | ok oe =>
          cases oe with
          | none => simp [Mixin.updateStack, h1, h2, h3, he] at hmem
          | some e2 =>
            cases hh : w.http (Request.stackUpdate (JSValue.num q) (JSValue.num e2)
                (UpdateBody.mk content false pull)) <;>
              (simp [Mixin.updateStack, h1, h2, h3, he, hh] at hmem
               obtain ⟨h4, h5, h6⟩ := hmem
               rw [h6]
               exact ⟨rfl, rfl⟩)
      · by_cases h4 : env = JSValue.jsNull
        · simp [Mixin.updateStack, h1, h2, h3, h4, invalidOptEnvId] at hmem
        · cases hh : w.http (Request.stackUpdate (JSValue.num q) env
              (UpdateBody.mk content false pull)) <;>
            (simp [Mixin.updateStack, h1, h2, h3, h4, hh] at hmem
             obtain ⟨h5, h6, h7⟩ := hmem
             rw [h7]
             exact ⟨rfl, rfl⟩)

/-- Claim C8 witness: a concrete update run in the all-success behaviour
issues the update request, and its body satisfies the property. -/
theorem updateStack_body_prune_false_literal_content_witness :
    (Event.http (Request.stackUpdate (JSValue.num 1) (JSValue.num 1)
        (UpdateBody.mk "services:" false true)) ∈
      (Mixin.updateStack okWorld (JSValue.num 1) (JSValue.str "services:")
        (JSValue.num 1) true).2) ∧
    (UpdateBody.mk "services:" false true).Prune = false ∧
    (UpdateBody.mk "services:" false true).StackFileContent = "services:" := by
  have hm : Event.http (Request.stackUpdate (JSValue.num 1) (JSValue.num 1)
      (UpdateBody.mk "services:" false true)) ∈
      (Mixin.updateStack okWorld (JSValue.num 1) (JSValue.str "services:")
        (JSValue.num 1) true).2 := by decide
  exact ⟨hm, updateStack_body_prune_false_literal_content okWorld 1 "services:"
    (JSValue.num 1) true (JSValue.num 1) (JSValue.num 1)
    (UpdateBody.mk "services:" false true) hm⟩

/-- Claim C9: restartContainer, at a numeric environment and any
non-negative timeout in milliseconds, issues exactly one request, the
restart request whose t query value is the timeout divided by 1000 and
rendered at two significant digits of precision (the embedding of the
JavaScript toPrecision call applied to the quotient). -/
theorem restartContainer_t_two_sig_digits
    (w : World) (cid : JSValue) (e : ℚ) (timeout : ℚ) (h : 0 ≤ timeout) :
    (ApiCore.restartContainer w cid (JSValue.num e) timeout).2 =
      [Event.http (Request.containerRestart cid (JSValue.num e)
        (jsToPrecision2 (timeout / 1000)))] := by
  cases hh : w.http (Request.containerRestart cid (JSValue.num e)
      (jsToPrecision2 (timeout / 1000))) <;>
    simp [ApiCore.restartContainer, resolveIfAbsent_num, hh]

/-- Claim C9 witness: the source default timeout of 10000 ms with the
all-success behaviour. -/
theorem restartContainer_t_two_sig_digits_witness :
    (0 : ℚ) ≤ 10000 ∧
    (ApiCore.restartContainer okWorld (JSValue.str "abc123") (JSValue.num 1) 10000).2 =
      [Event.http (Request.containerRestart (JSValue.str "abc123") (JSValue.num 1)
        (jsToPrecision2 ((10000 : ℚ) / 1000)))] :=
  ⟨by decide,
   restartContainer_t_two_sig_digits okWorld (JSValue.str "abc123") 1 10000 (by decide)⟩
